import Mathlib

/-!
Verification of the Verdant garden-planning core (`app.py`): the
existing-crop parser, the rule-based crop recommender with greedy
first-fit space packing, the planting-diagram renderer, and the
schedule generator with optional weather annotation.

Numeric inputs that are Python floats are modelled as rationals (ℚ);
the comparisons and arithmetic the code performs on them are exact at
every value the claims touch.
-/

set_option linter.unusedVariables false

namespace Verdant

/-- One existing-crop record produced by `parse_existing_crops`
(app.py lines 114-140): name, occupied area in sq ft, weeks grown. -/
structure ExistingCrop where
  name : String
  space : ℚ
  weeks_grown : ℚ
deriving DecidableEq

/-- Python whitespace for `str.strip()`: space, tab, newline, carriage
return, vertical tab, form feed. -/
def isPySpace (c : Char) : Bool :=
  c.toNat = 32 || c.toNat = 9 || c.toNat = 10 || c.toNat = 13 || c.toNat = 11 || c.toNat = 12

/-- Python's `str.strip()` with no argument: drop whitespace from both
ends. -/
def pyStrip (s : String) : String :=
  String.mk (((s.data.dropWhile isPySpace).reverse.dropWhile isPySpace).reverse)

/-- Python's `str.lower()` on the ASCII range (the only characters the
keyword rule compares). -/
def pyLower (s : String) : String :=
  String.mk (s.data.map Char.toLower)

/-- Segments of a character list split at non-overlapping occurrences of
a nonempty separator, scanning left to right; `acc` is the segment built
so far and the fuel dominates the remaining character count. -/
def splitSegs (sep : List Char) : ℕ → List Char → List Char → List (List Char)
  | 0, acc, rest => [acc ++ rest]
  | _ + 1, acc, [] => [acc]
  | fuel + 1, acc, c :: rest =>
      if sep.isPrefixOf (c :: rest) then
        acc :: splitSegs sep fuel [] ((c :: rest).drop sep.length)
      else
        splitSegs sep fuel (acc ++ [c]) rest

/-- Python's `str.split(sep)` for an explicit separator, e.g.
`"a;;b".split(";") == ["a","","b"]` and `"".split(";") == [""]`. -/
def pySplit (s sep : String) : List String :=
  if sep = "" then [s]
  else (splitSegs sep.data (s.data.length + 1) [] s.data).map String.mk

/-- Value of a list of decimal digit characters, most significant first. -/
def digitsVal (cs : List Char) : ℕ :=
  cs.foldl (fun a c => 10 * a + (c.toNat - 48)) 0

/-- Exponent suffix of a Python float literal: empty means exponent 0,
`e`/`E` followed by an optionally signed digit run gives that exponent,
anything else is a parse failure. -/
def parseExpPart (cs : List Char) : Option ℤ :=
  match cs with
  | [] => some 0
  | 'e' :: r => parseSignedDigits r
  | 'E' :: r => parseSignedDigits r
  | _ => none
where
  parseSignedDigits : List Char → Option ℤ
    | '+' :: r => if !r.isEmpty && r.all Char.isDigit then some (digitsVal r) else none
    | '-' :: r => if !r.isEmpty && r.all Char.isDigit then some (-(digitsVal r : ℤ)) else none
    | r => if !r.isEmpty && r.all Char.isDigit then some (digitsVal r) else none

/-- Model of Python's builtin `float(...)` applied to a string, on the
decimal-literal grammar: optional surrounding whitespace, optional sign,
digits with an optional fractional part (at least one digit overall),
optional `e`/`E` exponent. Returns `none` where `float` raises
`ValueError`. (The special forms `inf`/`nan` and underscore separators
are not modelled; no input in this development uses them.) -/
def parseFloat (s : String) : Option ℚ :=
  let cs := (pyStrip s).data
  let signRest : ℚ × List Char :=
    match cs with
    | '+' :: r => (1, r)
    | '-' :: r => (-1, r)
    | r => (1, r)
  let ip := signRest.2.takeWhile Char.isDigit
  let rest1 := signRest.2.dropWhile Char.isDigit
  let fracRest : List Char × List Char :=
    match rest1 with
    | '.' :: r => (r.takeWhile Char.isDigit, r.dropWhile Char.isDigit)
    | r => ([], r)
  if ip.isEmpty && fracRest.1.isEmpty then none
  else
    match parseExpPart fracRest.2 with
    | none => none
    | some e =>
        let mant : ℚ := (digitsVal ip : ℚ) + (digitsVal fracRest.1 : ℚ) / (10 : ℚ) ^ fracRest.1.length
        some (signRest.1 * mant * (10 : ℚ) ^ e)

/-- One `;`-separated segment of the existing-crops field (the body of
the loop in app.py lines 125-139): kept iff it splits on `:` into
exactly 3 fields; if either numeric field fails to parse, both numbers
are coerced to 0 (the `except ValueError` branch). -/
def parseItem (item : String) : Option ExistingCrop :=
  match pySplit item ":" with
  | [p0, p1, p2] =>
      match parseFloat (pyStrip p1), parseFloat (pyStrip p2) with
      | some sp, some wk => some ⟨pyStrip p0, sp, wk⟩
      | _, _ => some ⟨pyStrip p0, 0, 0⟩
  | _ => none

/-- One loop iteration of `parse_existing_crops`: append the entry when
the segment is kept, keep the accumulator unchanged otherwise. -/
def appendItem (crops_data : List ExistingCrop) (item : String) : List ExistingCrop :=
  match parseItem item with
  | some e => crops_data ++ [e]
  | none => crops_data

/-- `parse_existing_crops` (app.py lines 114-140): early-return `[]` on
blank input, then a loop over the `;`-split appending each kept entry to
an accumulator list. -/
def parse_existing_crops (existing_crops_str : String) : List ExistingCrop :=
  if pyStrip existing_crops_str = "" then []
  else (pySplit existing_crops_str ";").foldl appendItem []

/-- The parser contract as the spec words it (§4.1): split on `;`, keep
exactly the segments with exactly 3 `:`-fields, one record per kept
segment in input order; blank input yields the empty sequence. -/
def parseExistingCropsSpec (s : String) : List ExistingCrop :=
  if pyStrip s = "" then [] else (pySplit s ";").filterMap parseItem

/-- Python's `pat in s` substring test (used on lowercased needs):
for a nonempty pattern, `s.split(pat)` has more than one piece exactly
when the pattern occurs in `s`. -/
def strContains (s pat : String) : Bool :=
  (pySplit s pat).length != 1

/-- The static `crop_space_requirements` table of `recommend_crops`
(app.py lines 149-159) together with the `.get(crop, 5)` default. -/
def cropReq (crop : String) : ℚ :=
  if crop = "Potatoes" then 10
  else if crop = "Corn" then 12
  else if crop = "Zucchini" then 8
  else if crop = "Tomatoes" then 6
  else if crop = "Bell Peppers" then 6
  else if crop = "Lettuce" then 4
  else if crop = "Kale" then 4
  else if crop = "Carrots" then 5
  else if crop = "Onions" then 5
  else 5

/-- Candidate selection of `recommend_crops` (app.py lines 161-174):
sequential appends guarded by the three threshold/keyword rules, then
the default list when nothing was added. -/
def selectCandidates (volume_goal calorie_goal : ℚ) (additional_needs : String) : List String :=
  let r0 : List String := []
  let r1 := if calorie_goal > 2000 then r0 ++ ["Potatoes", "Corn"] else r0
  let r2 := if volume_goal > 10 then r1 ++ ["Zucchini", "Tomatoes", "Bell Peppers"] else r1
  let r3 := if strContains (pyLower additional_needs) "leafy greens" then r2 ++ ["Lettuce", "Kale"] else r2
  if r3 = [] then ["Tomatoes", "Carrots", "Onions"] else r3

/-- One iteration of the packing loop of `recommend_crops` (app.py
lines 178-182), on the state (accepted list, space left). -/
def packStep (req : String → ℚ) (st : List String × ℚ) (crop : String) : List String × ℚ :=
  if req crop ≤ st.2 then (st.1 ++ [crop], st.2 - req crop) else st

/-- The packing loop of `recommend_crops` (app.py lines 176-184):
start from the empty accepted list and `free_space`, fold `packStep`
over the candidates, return the accepted list. -/
def packGreedy (req : String → ℚ) (cands : List String) (space : ℚ) : List String :=
  (cands.foldl (packStep req) ([], space)).1

/-- `recommend_crops` (app.py lines 143-184): candidate selection
followed by greedy first-fit packing against the static table.
`num_people` is a parameter of the source function (and, as in the
source, is never consumed). -/
def recommend_crops (num_people : ℤ) (volume_goal calorie_goal : ℚ)
    (additional_needs : String) (free_space : ℚ) : List String :=
  packGreedy cropReq (selectCandidates volume_goal calorie_goal additional_needs) free_space

/-- The packing rule as the spec words it (§4.2): scan candidates once
in order; accept a crop whose requirement fits the remaining space and
subtract it; skip (and never retry) a crop that does not fit. -/
def specPack (req : String → ℚ) : List String → ℚ → List String
  | [], _ => []
  | c :: rest, space =>
      if req c ≤ space then c :: specPack req rest (space - req c)
      else specPack req rest space

/-- The candidate list as the spec words it (§4.2): the ordered
concatenation of the three rule blocks, or exactly the default list
when no rule fired. -/
def specCandidates (volume_goal calorie_goal : ℚ) (additional_needs : String) : List String :=
  if ¬ calorie_goal > 2000 ∧ ¬ volume_goal > 10 ∧
      ¬ strContains (pyLower additional_needs) "leafy greens" = true then
    ["Tomatoes", "Carrots", "Onions"]
  else
    (if calorie_goal > 2000 then ["Potatoes", "Corn"] else []) ++
    (if volume_goal > 10 then ["Zucchini", "Tomatoes", "Bell Peppers"] else []) ++
    (if strContains (pyLower additional_needs) "leafy greens" then ["Lettuce", "Kale"] else [])

/-- `free_space` as `generate_schedule_for_request` computes it
(app.py lines 400-402): garden size minus the summed areas of the
parsed existing crops, floored at zero. -/
def free_space_of (garden_size : ℚ) (existing : List ExistingCrop) : ℚ :=
  max 0 (garden_size - (existing.map ExistingCrop.space).sum)

/-- Summed static space requirements of a crop list. -/
def sumReqs (req : String → ℚ) (l : List String) : ℚ :=
  (l.map req).sum

/-- The abstract requirements table of the spec's packing example (§8):
candidates A, B, C with requirements 10, 200, 5. -/
def exampleReq : String → ℚ :=
  fun c => if c = "A" then 10 else if c = "B" then 200 else 5

/-- Python's `int(...)` on a float value: truncation toward zero. -/
def ratTrunc (q : ℚ) : ℤ :=
  q.num.tdiv (q.den : ℤ)

/-- Rendering of a rational value inside the output strings. The source
prints Python numbers here; only that equal values render equally is
used, never the exact digits. -/
def ratRepr (q : ℚ) : String :=
  if q.den = 1 then toString q.num else toString q.num ++ "/" ++ toString q.den

/-- Weeks remaining for an existing crop (app.py lines 221-223): a fixed
12-week total cycle minus the weeks grown, floored at zero. -/
def weeks_left_of (weeks_grown : ℚ) : ℚ :=
  max 0 (12 - weeks_grown)

/-- Days since 1970-01-01 of the civil date y-m-d (proleptic Gregorian),
as pandas timestamp arithmetic computes with dates. -/
def daysFromCivil (y m d : ℕ) : ℕ :=
  let yAdj := if m ≤ 2 then y - 1 else y
  let era := yAdj / 400
  let yoe := yAdj % 400
  let mp := if m ≤ 2 then m + 9 else m - 3
  let doy := (153 * mp + 2) / 5 + d - 1
  let doe := yoe * 365 + yoe / 4 - yoe / 100 + doy
  era * 146097 + doe - 719468

/-- Civil date (y, m, d) of a day count since 1970-01-01. -/
def civilFromDays (z : ℕ) : ℕ × ℕ × ℕ :=
  let z2 := z + 719468
  let era := z2 / 146097
  let doe := z2 % 146097
  let yoe := (doe - doe / 1460 + doe / 36524 - doe / 146097) / 365
  let y := yoe + era * 400
  let doy := doe - (365 * yoe + yoe / 4 - yoe / 100)
  let mp := (5 * doy + 2) / 153
  let d := doy - (153 * mp + 2) / 5 + 1
  let m := if mp < 10 then mp + 3 else mp - 9
  (if m ≤ 2 then y + 1 else y, m, d)

/-- Two-digit zero-padded rendering of a month or day number. -/
def pad2 (n : ℕ) : String :=
  if n < 10 then "0" ++ toString n else toString n

/-- The `YYYY-MM-DD` string of a day count, as `str(timestamp.date())`
prints it. -/
def dateStr (z : ℕ) : String :=
  let c := civilFromDays z
  toString c.1 ++ "-" ++ pad2 c.2.1 ++ "-" ++ pad2 c.2.2

/-- The fixed anchor `pd.Timestamp("2025-03-01")` of `generate_schedule`
(app.py line 234), as a day count. -/
def anchorDay : ℕ :=
  daysFromCivil 2025 3 1

/-- One day of the weather collaborator's forecast (`get_weather_forecast`
returns dicts with `date`, `temp`, `weather`). -/
structure ForecastDay where
  date : String
  temp : ℚ
  weather : String
deriving DecidableEq

/-- One schedule entry (the dicts built in app.py lines 224-245). -/
structure ScheduleEntry where
  crop : String
  planting_date : String
  watering_instructions : String
  weeding_instructions : String
  harvest_info : String
  weather_note : String
deriving DecidableEq

/-- Default entry used with `List.getD` in statements about schedule
positions. -/
def dummyEntry : ScheduleEntry :=
  ⟨"", "", "", "", "", ""⟩

/-- Default record used with `List.getD` in statements about existing
crops. -/
def dummyCrop : ExistingCrop :=
  ⟨"", 0, 0⟩

/-- Schedule entry for one existing crop (app.py lines 220-231). -/
def mkExistingEntry (ecrop : ExistingCrop) : ScheduleEntry :=
  { crop := ecrop.name ++ " (existing)"
  , planting_date := "~" ++ toString (ratTrunc ecrop.weeks_grown) ++ " weeks ago"
  , watering_instructions := "Continue watering as normal."
  , weeding_instructions := "Weed weekly."
  , harvest_info := "Ready in about " ++ ratRepr (weeks_left_of ecrop.weeks_grown) ++ " more weeks"
  , weather_note := "" }

/-- Schedule entry for the i-th newly recommended crop (app.py lines
234-245): planting one week per index after the anchor, harvest ten
weeks after planting. -/
def mkNewEntry (i : ℕ) (crop : String) : ScheduleEntry :=
  { crop := crop ++ " (new)"
  , planting_date := dateStr (anchorDay + 7 * i)
  , watering_instructions := "Water 1 inch/week (adjust if rainy)."
  , weeding_instructions := "Weed once/week."
  , harvest_info := "Estimated harvest around " ++ dateStr (anchorDay + 7 * i + 70)
  , weather_note := "" }

/-- Last forecast day carrying a given date string: the lookup in the
dict `{day["date"]: day}` of app.py line 250, where a later duplicate
date overwrites an earlier one. -/
def lookupLastDate (fc : List ForecastDay) (d : String) : Option ForecastDay :=
  fc.reverse.find? (fun day => day.date == d)

/-- Weather pass over one entry (app.py lines 251-256): attach the
forecast description when the planting-date string is a forecast date,
leave the entry unchanged otherwise. -/
def annotateEntry (fc : List ForecastDay) (e : ScheduleEntry) : ScheduleEntry :=
  match lookupLastDate fc e.planting_date with
  | some day => { e with weather_note := "Forecast: " ++ day.weather }
  | none => e

/-- `generate_schedule` (app.py lines 210-258): existing-crop entries,
then new-crop entries, then the optional weather pass. The `forecast`
argument is the weather collaborator's reply; `none` models an absent
`api_key`/coordinates (no weather pass). -/
def generate_schedule (existing : List ExistingCrop) (recommended : List String)
    (forecast : Option (List ForecastDay)) : List ScheduleEntry :=
  let schedule := existing.map mkExistingEntry ++
    recommended.enum.map (fun p => mkNewEntry p.1 p.2)
  match forecast with
  | some fc => schedule.map (annotateEntry fc)
  | none => schedule

/-- `generate_planting_diagram` (app.py lines 187-207): header, one row
per existing crop, then one row per new crop with a running row number,
or the no-space line when nothing new fits. -/
def generate_planting_diagram (existing : List ExistingCrop) (recommended : List String)
    (garden_size : ℚ) : String :=
  let header := "Garden Layout Diagram\n\n" ++
    "Total garden size: " ++ ratRepr garden_size ++ " sq ft\n\n" ++ "Existing Crops:\n"
  let st1 := existing.foldl
    (fun (st : String × ℕ) e =>
      (st.1 ++ "  Row " ++ toString st.2 ++ " (existing): " ++ e.name ++
        " occupying " ++ ratRepr e.space ++ " sq ft\n", st.2 + 1))
    (header, 1)
  if recommended ≠ [] then
    (recommended.foldl
      (fun (st : String × ℕ) c =>
        (st.1 ++ "  Row " ++ toString st.2 ++ " (new): " ++ c ++ "\n", st.2 + 1))
      (st1.1 ++ "\nNew Crops:\n", st1.2)).1
  else st1.1 ++ "\nNo space left for new crops.\n"

/-- The pipeline of `generate_schedule_for_request` (app.py lines
392-422) with the weather collaborator absent: parse the existing
crops, compute free space, recommend, render the diagram, generate the
schedule. -/
def run_pipeline (num_people : ℤ) (volume_goal calorie_goal : ℚ)
    (additional_needs : String) (garden_size : ℚ) (existing_crops_str : String) :
    String × List ScheduleEntry :=
  let existing := parse_existing_crops existing_crops_str
  let free_space := free_space_of garden_size existing
  let recommended := recommend_crops num_people volume_goal calorie_goal additional_needs free_space
  (generate_planting_diagram existing recommended garden_size,
   generate_schedule existing recommended none)

/-- Well-formed `YYYY-MM-DD` forecast date string: four digits, dash,
two digits, dash, two digits (the shape the weather collaborator's
contract promises, §6). -/
def isYMD (s : String) : Bool :=
  match s.data with
  | [y1, y2, y3, y4, h1, m1, m2, h2, d1, d2] =>
      y1.isDigit && y2.isDigit && y3.isDigit && y4.isDigit && h1 == '-' &&
      m1.isDigit && m2.isDigit && h2 == '-' && d1.isDigit && d2.isDigit
  | _ => false

/-- The packing loop with an arbitrary starting accumulator equals the
accumulator followed by the recursive first-fit scan. -/
theorem packFoldl_eq (req : String → ℚ) :
    ∀ (cands : List String) (acc : List String) (space : ℚ),
      (List.foldl (packStep req) (acc, space) cands).1 = acc ++ specPack req cands space := by
  intro cands
  induction cands with
  | nil => intro acc space; simp [specPack]
  | cons c rest ih =>
      intro acc space
      by_cases h : req c ≤ space
      · simp [List.foldl, packStep, h, specPack, ih]
      · simp [List.foldl, packStep, h, specPack, ih]

/-- The source's packing loop computes the spec's recursive greedy
first-fit scan. -/
theorem packGreedy_eq_specPack (req : String → ℚ) (cands : List String) (space : ℚ) :
    packGreedy req cands space = specPack req cands space := by
  simpa using packFoldl_eq req cands [] space

/-- The accepted crops form a sublist of the candidates: order is kept
and nothing is added or retried. -/
theorem specPack_sublist (req : String → ℚ) :
    ∀ (cands : List String) (space : ℚ), (specPack req cands space).Sublist cands := by
  intro cands
  induction cands with
  | nil => intro space; simp [specPack]
  | cons c rest ih =>
      intro space
      by_cases h : req c ≤ space
      · simpa [specPack, h] using (ih (space - req c)).cons₂ c
      · simpa [specPack, h] using (ih space).cons c

/-- The accepted crops' summed requirement never exceeds the starting
space when that space is nonnegative. -/
theorem specPack_sum_le (req : String → ℚ) :
    ∀ (cands : List String) (space : ℚ), 0 ≤ space →
      sumReqs req (specPack req cands space) ≤ space := by
  intro cands
  induction cands with
  | nil => intro space hs; simpa [specPack, sumReqs] using hs
  | cons c rest ih =>
      intro space hs
      by_cases h : req c ≤ space
      · have hrest := ih (space - req c) (by linarith)
        simp only [specPack, h, if_true, sumReqs, List.map_cons, List.sum_cons]
        have : (List.map req (specPack req rest (space - req c))).sum ≤ space - req c := hrest
        linarith
      · simpa [specPack, h] using ih space hs

/-- With strictly positive requirements, nothing is accepted when no
space is free. -/
theorem specPack_eq_nil (req : String → ℚ) (hreq : ∀ c, 0 < req c) :
    ∀ (cands : List String) (space : ℚ), space ≤ 0 → specPack req cands space = [] := by
  intro cands
  induction cands with
  | nil => intro space hs; simp [specPack]
  | cons c rest ih =>
      intro space hs
      have h : ¬ req c ≤ space := by
        have := hreq c
        intro hc
        linarith
      simp [specPack, h, ih space hs]

/-- Every entry of the static requirements table (and the default) is
strictly positive. -/
theorem cropReq_pos (c : String) : 0 < cropReq c := by
  unfold cropReq
  split_ifs <;> norm_num

/-- The candidate list never repeats a crop: the three rule blocks are
pairwise disjoint and the default fires only alone. -/
theorem selectCandidates_nodup (vg cg : ℚ) (an : String) :
    (selectCandidates vg cg an).Nodup := by
  unfold selectCandidates
  by_cases h1 : cg > 2000 <;> by_cases h2 : vg > 10 <;>
    by_cases h3 : strContains (pyLower an) "leafy greens" = true <;>
      simp [h1, h2, h3]

/-- The parser's accumulating loop equals the accumulator followed by
`filterMap` over the kept segments. -/
theorem foldl_appendItem (l : List String) :
    ∀ acc : List ExistingCrop,
      List.foldl appendItem acc l = acc ++ l.filterMap parseItem := by
  induction l with
  | nil => intro acc; simp
  | cons x xs ih =>
      intro acc
      cases hx : parseItem x <;>
        simp [List.foldl, appendItem, hx, ih, List.filterMap_cons]

/-- Claim C1 counterexample: with candidate requirements [10, 200, 5]
and free space 12 the packing loop accepts only the first candidate
(after accepting it, 2 sq ft remain, which fits neither later one), so
the claimed result [A, C] is wrong. -/
theorem packing_example_accepts_only_first :
    packGreedy exampleReq ["A", "B", "C"] 12 = ["A"] ∧
    packGreedy exampleReq ["A", "B", "C"] 12 ≠ ["A", "C"] := by
  have h : packGreedy exampleReq ["A", "B", "C"] 12 = ["A"] := by
    rw [packGreedy_eq_specPack]
    norm_num [specPack, show exampleReq "A" = 10 from rfl,
      show exampleReq "B" = 200 from rfl, show exampleReq "C" = 5 from rfl]
  exact ⟨h, by rw [h]; decide⟩

/-- Claim C1 (amended): the packing loop scans the candidates once in
order, accepts each crop whose requirement fits the remaining space and
subtracts it, and skips a crop that does not fit without consuming
space and without retrying it, continuing with later candidates. For
requirements [10, 200, 5]: with free space 12 only the first candidate
is accepted, while with free space 15 the first and third are accepted
and the second is skipped. -/
theorem packing_greedy_first_fit :
    (∀ (req : String → ℚ) (cands : List String) (space : ℚ),
        packGreedy req cands space = specPack req cands space) ∧
    packGreedy exampleReq ["A", "B", "C"] 12 = ["A"] ∧
    packGreedy exampleReq ["A", "B", "C"] 15 = ["A", "C"] := by
  refine ⟨packGreedy_eq_specPack, ?_, ?_⟩ <;>
    rw [packGreedy_eq_specPack] <;>
      norm_num [specPack, show exampleReq "A" = 10 from rfl,
        show exampleReq "B" = 200 from rfl, show exampleReq "C" = 5 from rfl]

/-- Claim C2: the candidate list before packing follows exactly the
three ordered threshold/keyword rules with the default list when no
rule fired, and the example goals (calorieGoal 2500, volumeGoal 0, no
additional needs, free space 100) recommend exactly Potatoes then
Corn. -/
theorem candidate_selection_rules :
    (∀ (num_people : ℤ) (vg cg fs : ℚ) (an : String),
        recommend_crops num_people vg cg an fs
          = packGreedy cropReq (selectCandidates vg cg an) fs) ∧
    (∀ (vg cg : ℚ) (an : String), selectCandidates vg cg an = specCandidates vg cg an) ∧
    recommend_crops 0 0 2500 "" 100 = ["Potatoes", "Corn"] := by
  refine ⟨fun _ _ _ _ _ => rfl, ?_, ?_⟩
  · intro vg cg an
    unfold selectCandidates specCandidates
    by_cases h1 : cg > 2000 <;> by_cases h2 : vg > 10 <;>
      by_cases h3 : strContains (pyLower an) "leafy greens" = true <;>
        simp [h1, h2, h3]
  · have hc : selectCandidates 0 2500 "" = ["Potatoes", "Corn"] := by decide
    show packGreedy cropReq (selectCandidates 0 2500 "") 100 = ["Potatoes", "Corn"]
    rw [hc, packGreedy_eq_specPack]
    norm_num [specPack, show cropReq "Potatoes" = 10 from rfl,
      show cropReq "Corn" = 12 from rfl]

/-- Claim C3: the summed static requirements of the recommended crops
never exceed the free space computed as the garden size minus the
existing crops' areas floored at zero, and zero free space always
yields the empty recommendation. -/
theorem recommend_space_invariant (num_people : ℤ) (vg cg : ℚ) (an : String)
    (garden_size : ℚ) (existing : List ExistingCrop) :
    sumReqs cropReq (recommend_crops num_people vg cg an (free_space_of garden_size existing))
      ≤ free_space_of garden_size existing ∧
    (free_space_of garden_size existing = 0 →
      recommend_crops num_people vg cg an (free_space_of garden_size existing) = []) := by
  constructor
  · show sumReqs cropReq (packGreedy cropReq _ _) ≤ _
    rw [packGreedy_eq_specPack]
    exact specPack_sum_le cropReq _ _ (le_max_left 0 _)
  · intro h
    show packGreedy cropReq _ _ = []
    rw [packGreedy_eq_specPack]
    exact specPack_eq_nil cropReq cropReq_pos _ _ (le_of_eq h)

/-- Witness for claim C3 at a garden fully occupied by one existing
crop: free space is zero and the recommendation is empty. -/
theorem recommend_space_invariant_witness :
    recommend_crops 0 0 2500 "" (free_space_of 50 [⟨"Tomatoes", 50, 4⟩]) = [] :=
  (recommend_space_invariant 0 0 2500 "" 50 [⟨"Tomatoes", 50, 4⟩]).2
    (by simp [free_space_of])

/-- Claim C4: the parser splits on `;`, keeps exactly the segments
splitting on `:` into exactly 3 fields in input order, coerces both
numbers to 0 when either numeric field fails to parse, and returns the
empty sequence on blank input. -/
theorem parse_existing_crops_contract :
    (∀ s : String, parse_existing_crops s = parseExistingCropsSpec s) ∧
    parse_existing_crops "Tomatoes:abc:4" = [⟨"Tomatoes", 0, 0⟩] ∧
    parse_existing_crops "   " = [] ∧
    parse_existing_crops "" = [] ∧
    parse_existing_crops "A:x:1;bad;B:y:2" = [⟨"A", 0, 0⟩, ⟨"B", 0, 0⟩] := by
  refine ⟨?_, by decide, by decide, by decide, by decide⟩
  intro s
  unfold parse_existing_crops parseExistingCropsSpec
  split
  · rfl
  · simpa using foldl_appendItem (pySplit s ";") []

/-- Mapping commutes with positional default lookup below the length. -/
theorem getD_map_of_lt {α β : Type} (f : α → β) (l : List α) {i : ℕ}
    (hi : i < l.length) (d : β) (dflt : α) :
    (l.map f).getD i d = f (l.getD i dflt) := by
  rw [List.getD_eq_getElem?_getD, List.getD_eq_getElem?_getD, List.getElem?_map,
    List.getElem?_eq_getElem hi]
  rfl

/-- The schedule without weather has one entry per existing crop
followed by one entry per recommended crop. -/
theorem generate_schedule_none_length (existing : List ExistingCrop)
    (recommended : List String) :
    (generate_schedule existing recommended none).length
      = existing.length + recommended.length := by
  simp [generate_schedule, List.enum_length]

/-- Positions below the existing-crop count hold the existing-crop
entries, in order. -/
theorem sched_getD_existing (existing : List ExistingCrop) (recommended : List String)
    {i : ℕ} (hi : i < existing.length) :
    (generate_schedule existing recommended none).getD i dummyEntry
      = mkExistingEntry (existing.getD i dummyCrop) := by
  show (existing.map mkExistingEntry ++ _).getD i dummyEntry = _
  rw [List.getD_eq_getElem?_getD, List.getElem?_append]
  simp only [List.length_map, hi, if_true]
  rw [List.getElem?_map, List.getElem?_eq_getElem hi,
    List.getD_eq_getElem?_getD, List.getElem?_eq_getElem hi]
  rfl

/-- Positions at the existing-crop count plus j hold the new-crop
entries, indexed from zero in list order. -/
theorem sched_getD_new (existing : List ExistingCrop) (recommended : List String)
    {j : ℕ} (hj : j < recommended.length) :
    (generate_schedule existing recommended none).getD (existing.length + j) dummyEntry
      = mkNewEntry j (recommended.getD j "") := by
  show (existing.map mkExistingEntry ++
      recommended.enum.map (fun p => mkNewEntry p.1 p.2)).getD (existing.length + j) dummyEntry = _
  rw [List.getD_eq_getElem?_getD,
    List.getElem?_append_right (by simp [List.length_map])]
  simp only [List.length_map, Nat.add_sub_cancel_left]
  rw [List.getElem?_map, List.getElem?_enum, List.getElem?_eq_getElem hj,
    List.getD_eq_getElem?_getD, List.getElem?_eq_getElem hj]
  rfl

/-- Before the weather pass, every entry carries the empty weather
note. -/
theorem sched_none_note (existing : List ExistingCrop) (recommended : List String) :
    ∀ e ∈ generate_schedule existing recommended none, e.weather_note = "" := by
  intro e he
  have he2 : e ∈ existing.map mkExistingEntry ++
      recommended.enum.map (fun p => mkNewEntry p.1 p.2) := he
  rcases List.mem_append.mp he2 with h | h
  · rcases List.mem_map.mp h with ⟨x, _, hx⟩
    rw [← hx]; rfl
  · rcases List.mem_map.mp h with ⟨x, _, hx⟩
    rw [← hx]; rfl

/-- The schedule with a forecast is the weather pass mapped over the
schedule without one. -/
theorem generate_schedule_some (existing : List ExistingCrop) (recommended : List String)
    (fc : List ForecastDay) :
    generate_schedule existing recommended (some fc)
      = (generate_schedule existing recommended none).map (annotateEntry fc) :=
  rfl

/-- Well-formed forecast dates never equal a relative
"~N weeks ago" planting string, which begins with a tilde. -/
theorem isYMD_ne_rel (t s : String) (h : isYMD t = true) : t ≠ "~" ++ s := by
  intro heq
  subst heq
  have hd : ("~" ++ s).data = '~' :: s.data := by
    rw [String.data_append]; rfl
  unfold isYMD at h
  rw [hd] at h
  split at h
  · rename_i y1 y2 y3 y4 h1 m1 m2 h2 d1 d2 heq2
    have hy : y1 = '~' := ((List.cons.inj heq2).1).symm
    rw [hy, show ('~'.isDigit) = false from rfl] at h
    simp at h
  · simp at h

/-- Under well-formed forecast dates, the dict lookup at a relative
planting string finds nothing. -/
theorem lookupLastDate_rel_none (fc : List ForecastDay) (s : String)
    (hf : ∀ d ∈ fc, isYMD d.date = true) :
    lookupLastDate fc ("~" ++ s) = none := by
  apply List.find?_eq_none.mpr
  intro day hday
  intro hbeq
  exact isYMD_ne_rel day.date s (hf day (List.mem_reverse.mp hday)) (eq_of_beq hbeq)

/-- Claim C5: the schedule holds one entry per existing crop followed
by one entry per recommended crop, existing entries first; the j-th
recommended crop (0-based) plants on the fixed anchor 2025-03-01 plus j
weeks and harvests 10 weeks (70 days) after planting, independent of
crop type. -/
theorem schedule_structure_and_dates (existing : List ExistingCrop)
    (recommended : List String) (i j : ℕ)
    (hi : i < existing.length) (hj : j < recommended.length) :
    dateStr anchorDay = "2025-03-01" ∧
    (generate_schedule existing recommended none).length
      = existing.length + recommended.length ∧
    ((generate_schedule existing recommended none).getD i dummyEntry).crop
      = (existing.getD i dummyCrop).name ++ " (existing)" ∧
    ((generate_schedule existing recommended none).getD
        (existing.length + j) dummyEntry).planting_date
      = dateStr (anchorDay + 7 * j) ∧
    ((generate_schedule existing recommended none).getD
        (existing.length + j) dummyEntry).harvest_info
      = "Estimated harvest around " ++ dateStr (anchorDay + 7 * j + 70) := by
  refine ⟨by decide, generate_schedule_none_length existing recommended, ?_, ?_, ?_⟩
  · rw [sched_getD_existing existing recommended hi]; rfl
  · rw [sched_getD_new existing recommended hj]; rfl
  · rw [sched_getD_new existing recommended hj]; rfl

/-- Witness for claim C5: one existing crop and two recommended crops;
the second new crop plants one week after the anchor and harvests 70
days later. -/
theorem schedule_structure_and_dates_witness :
    dateStr anchorDay = "2025-03-01" ∧
    (generate_schedule [⟨"Lettuce", 25, 2⟩] ["X", "Y"] none).length
      = ([⟨"Lettuce", 25, 2⟩] : List ExistingCrop).length + (["X", "Y"] : List String).length ∧
    ((generate_schedule [⟨"Lettuce", 25, 2⟩] ["X", "Y"] none).getD 0 dummyEntry).crop
      = (([⟨"Lettuce", 25, 2⟩] : List ExistingCrop).getD 0 dummyCrop).name ++ " (existing)" ∧
    ((generate_schedule [⟨"Lettuce", 25, 2⟩] ["X", "Y"] none).getD
        (([⟨"Lettuce", 25, 2⟩] : List ExistingCrop).length + 1) dummyEntry).planting_date
      = dateStr (anchorDay + 7 * 1) ∧
    ((generate_schedule [⟨"Lettuce", 25, 2⟩] ["X", "Y"] none).getD
        (([⟨"Lettuce", 25, 2⟩] : List ExistingCrop).length + 1) dummyEntry).harvest_info
      = "Estimated harvest around " ++ dateStr (anchorDay + 7 * 1 + 70) :=
  schedule_structure_and_dates [⟨"Lettuce", 25, 2⟩] ["X", "Y"] 0 1 (by decide) (by decide)

/-- Claim C6: an existing crop's remaining time is computed as
max(0, 12 − weeksGrown) against the fixed 12-week cycle, so it is never
negative, and 15 weeks grown yields 0 remaining; the schedule entry
renders exactly this value. -/
theorem existing_weeks_remaining (w : ℚ) (existing : List ExistingCrop)
    (recommended : List String) (i : ℕ) (hi : i < existing.length) :
    weeks_left_of w = max 0 (12 - w) ∧
    0 ≤ weeks_left_of w ∧
    weeks_left_of 15 = 0 ∧
    ((generate_schedule existing recommended none).getD i dummyEntry).harvest_info
      = "Ready in about " ++
          ratRepr (weeks_left_of ((existing.getD i dummyCrop).weeks_grown)) ++
          " more weeks" := by
  refine ⟨rfl, le_max_left 0 _, ?_, ?_⟩
  · unfold weeks_left_of
    rw [max_eq_left (by norm_num)]
  · rw [sched_getD_existing existing recommended hi]; rfl

/-- Witness for claim C6: a crop grown for 15 weeks, beyond the
12-week cycle, shows 0 weeks remaining. -/
theorem existing_weeks_remaining_witness :
    weeks_left_of 15 = max 0 (12 - 15) ∧
    0 ≤ weeks_left_of 15 ∧
    weeks_left_of 15 = 0 ∧
    ((generate_schedule [⟨"Tomatoes", 50, 15⟩] [] none).getD 0 dummyEntry).harvest_info
      = "Ready in about " ++
          ratRepr (weeks_left_of ((([⟨"Tomatoes", 50, 15⟩] : List ExistingCrop).getD 0
            dummyCrop).weeks_grown)) ++
          " more weeks" :=
  existing_weeks_remaining 15 [⟨"Tomatoes", 50, 15⟩] [] 0 (by decide)

/-- Claim C7: with a forecast of well-formed YYYY-MM-DD dates, an entry
gets a weather note exactly when its planting-date string equals a
forecast date (no match leaves the note empty, not an error), and
existing-crop entries with relative "~N weeks ago" dates never match
and keep the empty note. -/
theorem weather_annotation_exact_match (existing : List ExistingCrop)
    (recommended : List String) (fc : List ForecastDay) (i : ℕ)
    (hf : ∀ d ∈ fc, isYMD d.date = true)
    (hi : i < existing.length + recommended.length) :
    (generate_schedule existing recommended (some fc)).length
      = (generate_schedule existing recommended none).length ∧
    ((generate_schedule existing recommended (some fc)).getD i dummyEntry).weather_note
      = (match lookupLastDate fc
            (((generate_schedule existing recommended none).getD i
              dummyEntry).planting_date) with
         | some day => "Forecast: " ++ day.weather
         | none => "") ∧
    (i < existing.length →
      ((generate_schedule existing recommended (some fc)).getD i
        dummyEntry).weather_note = "") := by
  have hlen : i < (generate_schedule existing recommended none).length := by
    rw [generate_schedule_none_length]; exact hi
  have hmap : (generate_schedule existing recommended (some fc)).getD i dummyEntry
      = annotateEntry fc ((generate_schedule existing recommended none).getD i dummyEntry) := by
    rw [generate_schedule_some]
    exact getD_map_of_lt _ _ hlen _ dummyEntry
  have hmem : (generate_schedule existing recommended none).getD i dummyEntry
      ∈ generate_schedule existing recommended none := by
    rw [List.getD_eq_getElem?_getD, List.getElem?_eq_getElem hlen]
    exact List.getElem_mem hlen
  have hnote := sched_none_note existing recommended _ hmem
  refine ⟨by rw [generate_schedule_some, List.length_map], ?_, ?_⟩
  · rw [hmap]
    unfold annotateEntry
    cases h : lookupLastDate fc
        (((generate_schedule existing recommended none).getD i
          dummyEntry).planting_date)
    · simpa using hnote
    · rfl
  · intro hie
    rw [hmap, sched_getD_existing existing recommended hie]
    unfold annotateEntry
    have hrel : (mkExistingEntry (existing.getD i dummyCrop)).planting_date
        = "~" ++ (toString (ratTrunc (existing.getD i dummyCrop).weeks_grown)
            ++ " weeks ago") := by
      show "~" ++ toString (ratTrunc (existing.getD i dummyCrop).weeks_grown)
          ++ " weeks ago" = _
      rw [String.append_assoc]
    rw [hrel, lookupLastDate_rel_none fc _ hf]
    rfl

/-- Witness for claim C7: one existing and one new crop with a forecast
for the anchor date; the existing entry at position 0 keeps an empty
note. -/
theorem weather_annotation_exact_match_witness :
    (generate_schedule [⟨"Lettuce", 25, 2⟩] ["X"] (some [⟨"2025-03-01", 20, "sunny"⟩])).length
      = (generate_schedule [⟨"Lettuce", 25, 2⟩] ["X"] none).length ∧
    ((generate_schedule [⟨"Lettuce", 25, 2⟩] ["X"]
        (some [⟨"2025-03-01", 20, "sunny"⟩])).getD 0 dummyEntry).weather_note
      = (match lookupLastDate [⟨"2025-03-01", 20, "sunny"⟩]
            (((generate_schedule [⟨"Lettuce", 25, 2⟩] ["X"] none).getD 0
              dummyEntry).planting_date) with
         | some day => "Forecast: " ++ day.weather
         | none => "") ∧
    (0 < ([⟨"Lettuce", 25, 2⟩] : List ExistingCrop).length →
      ((generate_schedule [⟨"Lettuce", 25, 2⟩] ["X"]
          (some [⟨"2025-03-01", 20, "sunny"⟩])).getD 0 dummyEntry).weather_note = "") :=
  weather_annotation_exact_match [⟨"Lettuce", 25, 2⟩] ["X"]
    [⟨"2025-03-01", 20, "sunny"⟩] 0 (by decide) (by decide)

/-- Claim C8: the pipeline (parse, free space, recommend, diagram,
schedule) run twice on identical inputs with the weather collaborator
absent produces identical diagram text and identical schedule
entries. -/
theorem pipeline_deterministic (np1 np2 : ℤ) (vg1 vg2 cg1 cg2 gs1 gs2 : ℚ)
    (an1 an2 ecs1 ecs2 : String)
    (hnp : np1 = np2) (hvg : vg1 = vg2) (hcg : cg1 = cg2)
    (hgs : gs1 = gs2) (han : an1 = an2) (hecs : ecs1 = ecs2) :
    (run_pipeline np1 vg1 cg1 an1 gs1 ecs1).1 = (run_pipeline np2 vg2 cg2 an2 gs2 ecs2).1 ∧
    (run_pipeline np1 vg1 cg1 an1 gs1 ecs1).2 = (run_pipeline np2 vg2 cg2 an2 gs2 ecs2).2 := by
  subst hnp hvg hcg hgs han hecs
  exact ⟨rfl, rfl⟩

/-- Witness for claim C8: two runs on one concrete request agree on
diagram and schedule. -/
theorem pipeline_deterministic_witness :
    (run_pipeline 4 0 2500 "" 100 "Lettuce:25:2").1
      = (run_pipeline 4 0 2500 "" 100 "Lettuce:25:2").1 ∧
    (run_pipeline 4 0 2500 "" 100 "Lettuce:25:2").2
      = (run_pipeline 4 0 2500 "" 100 "Lettuce:25:2").2 :=
  pipeline_deterministic 4 4 0 0 2500 2500 100 100 "" "" "Lettuce:25:2" "Lettuce:25:2"
    rfl rfl rfl rfl rfl rfl

/-- Claim C9: two calls to the recommender that differ only in
`num_people` return identical crop lists; the parameter is accepted but
never consumed. -/
theorem num_people_not_consumed (np1 np2 : ℤ) (vg cg fs : ℚ) (an : String) :
    recommend_crops np1 vg cg an fs = recommend_crops np2 vg cg an fs :=
  rfl

/-- Claim C10: the recommender never returns a crop name twice: the
rule blocks contribute pairwise-disjoint crops, the default fires only
alone, and packing selects a sublist of the candidates. -/
theorem recommendations_nodup (np : ℤ) (vg cg fs : ℚ) (an : String) :
    (recommend_crops np vg cg an fs).Nodup := by
  have hsub : (recommend_crops np vg cg an fs).Sublist (selectCandidates vg cg an) := by
    show (packGreedy cropReq (selectCandidates vg cg an) fs).Sublist _
    rw [packGreedy_eq_specPack]
    exact specPack_sublist _ _ _
  exact (selectCandidates_nodup vg cg an).sublist hsub

